import Mathlib

/-!
Shallow embedding of the BehaviorTree.CPP core node abstraction
(src/include/behaviortree_cpp/tree_node.h) : the data model
(NodeConfiguration, the blackboard store contract, the type-erased value
universe), the port-resolution templates getParam / setOutput as they are
written inline in the header, and spec-modelled definitions for the few
declared-but-not-included members (isParseableString, setBlackboard,
setStatus, waitValidStatus, the uid counter).

The C++ templates are generic in T; here the requested type is reified as
a small closed universe Ty, type-erased stored values as Val, mirroring
the SafeAny::Any collaborator contract (type tag plus checked extraction).
The pluggable string-conversion collaborator convertFromString is a
parameter (parse) of the resolution functions, plus one concrete model
instance used by the closed examples.
-/

/-- The four-state node status (from the basic_types collaborator, as used in
tree_node.h). -/
inductive NodeStatus
  | IDLE
  | RUNNING
  | SUCCESS
  | FAILURE
  deriving DecidableEq

/-- Reified requested/stored type tags for the generic parameter T of the
getParam and setOutput templates: an integer type and the text-like type
(std::string and SafeAny::SimpleString collapsed into one). -/
inductive Ty
  | tInt
  | tStr
  deriving DecidableEq

/-- A type-erased stored value, mirroring the SafeAny::Any collaborator. -/
inductive Val
  | vInt (i : Int)
  | vStr (s : String)
  deriving DecidableEq

/-- The type tag of an erased value: models Any.type(). -/
def Val.ty : Val → Ty
  | .vInt _ => .tInt
  | .vStr _ => .tStr

/-- Models val.cast to std::string, which in tree_node.h:204 is applied only
under the guard that the stored type is a text type; the non-string branch is
unreachable there. -/
def Val.asString : Val → String
  | .vStr s => s
  | .vInt _ => ""

/-- Checked type-erased extraction into the requested type: succeeds exactly
when the erased type matches, models the throwing Any.cast of the store
contract (spec section 4.3 step 4: checked extraction, TypeMismatch on
failure). -/
def Val.cast (v : Val) (t : Ty) : Option Val :=
  if v.ty = t then some v else none

/-- The shared store (Blackboard collaborator), consumed through the narrow
get/set contract only: a name-keyed container of type-erased values. -/
structure Blackboard where
  entries : List (String × Val)
  deriving DecidableEq

/-- Store lookup: models Blackboard.getAny returning a pointer that is null
exactly when the key is absent. -/
def Blackboard.getAny (bb : Blackboard) (key : String) : Option Val :=
  bb.entries.lookup key

/-- Store write with create-or-overwrite semantics: the new binding shadows
any previous one for lookup. -/
def Blackboard.set (bb : Blackboard) (key : String) (value : Val) : Blackboard :=
  ⟨(key, value) :: bb.entries⟩

/-- NodeConfiguration (tree_node.h:35-40): store reference (a possibly null
shared pointer), registration id, and the ports remapping table
(an unordered string-to-string map, embedded as an association list). -/
structure NodeConfiguration where
  blackboard : Option Blackboard
  registration_ID : String
  ports_remapping : List (String × String)
  deriving DecidableEq

/-- The TreeNode state relevant to identity, configuration and port
resolution (tree_node.h:147-164): name_, status_, the uint16_t uid_
(embedded as a Nat holding the 16-bit value), the const config_ member and
the separate blackboard pointer bb_ that the resolution templates use. -/
structure TreeNode where
  name_ : String
  status_ : NodeStatus
  uid_ : Nat
  config_ : NodeConfiguration
  bb_ : Option Blackboard
  deriving DecidableEq

/-- Modelled from the spec: isParseableString is declared at tree_node.h:136
but its body is not under src/. The spec describes it as a pure predicate
recognizing the bracket-delimited literal convention whose stripping
behavior drops the first and last character, and leaves the exact delimiter
pair open; square brackets are chosen here. -/
def TreeNode.isParseableString (str : String) : Bool :=
  decide (str.length ≥ 2) && str.front == '[' && str.back == ']'

/-- The continuation of getParam after the port lookup and the
equal-token substitution (tree_node.h:182-216), taking the already
substituted remapped_key. The parse argument is the string-conversion
collaborator convertFromString reified for the type universe; destination
is the caller's out-parameter, returned unchanged on the false paths.
Note tree_node.h:186 computes remapped_key.substr(1, size - 2) and discards
the result, so the full remapped_key reaches convertFromString. -/
def TreeNode.getParamResolved (parse : Ty → String → Option Val) (node : TreeNode)
    (t : Ty) (remapped_key : String) (destination : Val) : Bool × Val :=
  if TreeNode.isParseableString remapped_key then
    match parse t remapped_key with
    | some v => (true, v)
    | none => (false, destination)
  else
    match node.bb_ with
    | none => (false, destination)
    | some bb =>
      match bb.getAny remapped_key with
      | none => (false, destination)
      | some val =>
        if t ≠ Ty.tStr ∧ val.ty = Ty.tStr then
          match parse t val.asString with
          | some v => (true, v)
          | none => (false, destination)
        else
          match val.cast t with
          | some v => (true, v)
          | none => (false, destination)

/-- The bool-returning getParam overload (tree_node.h:168-217): port lookup
in config_.ports_remapping, the equal-token substitution at
tree_node.h:178-181, then the resolution continuation. Every caught failure
(the cerr-and-return-false paths and the catch block) is the value false
with destination untouched. -/
def TreeNode.getParam (parse : Ty → String → Option Val) (node : TreeNode)
    (t : Ty) (key : String) (destination : Val) : Bool × Val :=
  match node.config_.ports_remapping.lookup key with
  | none => (false, destination)
  | some remap =>
    node.getParamResolved parse t (if remap = ("=" : String) then key else remap) destination

/-- The optional-returning getParam overload (tree_node.h:123-128): a
default-constructed out variable (defaultVal) passed to the bool overload,
engaged with the written value on true, empty on false. -/
def TreeNode.getParamOpt (parse : Ty → String → Option Val) (node : TreeNode)
    (t : Ty) (key : String) (defaultVal : Val) : Option Val :=
  let r := node.getParam parse t key defaultVal
  if r.1 then some r.2 else none

/-- Outcome of setOutput: ok carries the node with the updated store, failed
is the cerr-and-return-false path, and crash marks the dereference of a null
bb_ (tree_node.h:239 calls bb_->set with no null check, which is undefined
behavior on an empty shared pointer, not a false return). -/
inductive SetOutputResult
  | ok (node : TreeNode)
  | failed
  | crash
  deriving DecidableEq

/-- The continuation of setOutput after the port lookup and the equal-token
substitution (tree_node.h:233-240). -/
def TreeNode.setOutputResolved (node : TreeNode) (remapped_key : String)
    (value : Val) : SetOutputResult :=
  if TreeNode.isParseableString remapped_key then
    SetOutputResult.failed
  else
    match node.bb_ with
    | none => SetOutputResult.crash
    | some bb => SetOutputResult.ok { node with bb_ := some (bb.set remapped_key value) }

/-- setOutput (tree_node.h:219-241): port lookup, equal-token substitution
at tree_node.h:228-232, then the write continuation. -/
def TreeNode.setOutput (node : TreeNode) (key : String) (value : Val) : SetOutputResult :=
  match node.config_.ports_remapping.lookup key with
  | none => SetOutputResult.failed
  | some remap =>
    node.setOutputResolved (if remap = ("=" : String) then key else remap) value

/-- Decimal digit accumulation over a character list; fails at the first
non-digit character. -/
def parseDigits : List Char → Nat → Option Nat
  | [], acc => some acc
  | c :: rest, acc =>
    if c.isDigit then parseDigits rest (acc * 10 + (c.toNat - 48)) else none

/-- A plain decimal integer parser with optional leading minus sign. -/
def parseInt (s : String) : Option Int :=
  match s.data with
  | [] => none
  | '-' :: rest =>
    if rest.isEmpty then none else (parseDigits rest 0).map (fun n => -(n : Int))
  | cs => (parseDigits cs 0).map (fun n => (n : Int))

/-- A concrete model instance of the external string-conversion collaborator
convertFromString: integers parse in decimal notation, the text type parses
as itself. -/
def convertFromString (t : Ty) (s : String) : Option Val :=
  match t with
  | .tInt => (parseInt s).map Val.vInt
  | .tStr => some (Val.vStr s)

/-- Modelled from the spec: step 3 of getParam as specified strips the
delimiters, dropping the first and last character of the remap expression. -/
def stripDelimiters (s : String) : String :=
  (s.drop 1).dropRight 1

/-- Modelled from the spec: the literal branch of getParam as specified
(section 4.3 step 3) parses the inner text of the bracket-delimited literal,
returns it on success, fails with ConversionError otherwise. Stated for
comparison with the source embedding TreeNode.getParamResolved. -/
def getParamLiteralSpec (parse : Ty → String → Option Val) (t : Ty)
    (remapped_key : String) (destination : Val) : Bool × Val :=
  match parse t (stripDelimiters remapped_key) with
  | some v => (true, v)
  | none => (false, destination)

/-- Modelled from the spec: setBlackboard is declared at tree_node.h:86 with
its body not under src/; among the node members only bb_ is a non-const
store reference, so it reassigns bb_. -/
def TreeNode.setBlackboard (node : TreeNode) (bb : Option Blackboard) : TreeNode :=
  { node with bb_ := bb }

/-- Modelled from the spec: the unique id counter is not under src/ (only
the const uint16_t field uid_ at tree_node.h:159 and the accessor UID at
tree_node.h:112 are). The spec describes a process-wide monotonically
increasing counter, incremented once per construction under synchronization;
stored into the uint16_t field, the n-th constructed node observes the
counter value reduced modulo 2 to the 16. -/
def uidOf (n : Nat) : Nat := n % 65536

/-- Modelled from the spec: the per-node synchronization state observed by
setStatus, whose body is not under src/: the guarded status_ and the ids of
the currently subscribed status-change callbacks (tree_node.h:151,
tree_node.h:157). -/
structure NodeSync where
  status_ : NodeStatus
  subscribers : List Nat
  deriving DecidableEq

/-- Modelled from the spec: the observable effect of one setStatus call: the
updated sync state, the list of callback invocations fired (callback id with
the old and new status arguments, in subscription order), and whether the
blocked waitValidStatus callers were woken. -/
structure SetStatusEffect where
  node : NodeSync
  fired : List (Nat × NodeStatus × NodeStatus)
  wakes : Bool
  deriving DecidableEq

/-- Modelled from the spec: setStatus is declared at tree_node.h:84 with its
body not under src/. Per spec section 4.1, if the new status equals the
current value the call is a no-op with no notification and no wake;
otherwise it updates the status, invokes every currently subscribed callback
once with the old and new status, in subscription order, and wakes every
blocked waitValidStatus caller. -/
def NodeSync.setStatus (s : NodeSync) (new_status : NodeStatus) : SetStatusEffect :=
  if new_status = s.status_ then
    ⟨s, [], false⟩
  else
    ⟨{ s with status_ := new_status },
     s.subscribers.map (fun c => (c, s.status_, new_status)), true⟩

/-- Modelled from the spec: waitValidStatus is declared at tree_node.h:90-92
with its body not under src/. Trace semantics: current is the status at the
time of the call and future the successive values later passed to setStatus;
the call returns at the first status different from IDLE, and none models
blocking forever (no such call ever arrives). -/
def waitValidStatus (current : NodeStatus) (future : List NodeStatus) : Option NodeStatus :=
  if current = NodeStatus.IDLE then
    match future with
    | [] => none
    | s :: rest => waitValidStatus s rest
  else some current

/-- The first status different from IDLE in a list of statuses. -/
def firstNonIdle : List NodeStatus → Option NodeStatus
  | [] => none
  | s :: rest => if s = NodeStatus.IDLE then firstNonIdle rest else some s

/-! Concrete node instances used by the closed evaluations below. -/

/-- A node whose port answer is remapped to the bracket literal encoding 5,
with a store that also holds an entry under the same name (to observe that
the literal path never consults it). -/
def nodeLiteralFive : TreeNode :=
  ⟨"lit", NodeStatus.IDLE, 1,
   ⟨some ⟨[("answer", Val.vInt 99)]⟩, "LitNode", [("answer", "[5]")]⟩,
   some ⟨[("answer", Val.vInt 99)]⟩⟩

/-- A node with no store reference (bb_ is the null pointer) whose port out
is remapped to the plain store key dest. -/
def nodeNoStore : TreeNode :=
  ⟨"nostore", NodeStatus.IDLE, 2,
   ⟨none, "NoStoreNode", [("out", "dest")]⟩,
   none⟩

/-- A node whose port speed is remapped to the equal token, with a store
holding 3 under the name speed. -/
def nodeSpeed : TreeNode :=
  ⟨"speed", NodeStatus.IDLE, 3,
   ⟨some ⟨[("speed", Val.vInt 3)]⟩, "SpeedNode", [("speed", "=")]⟩,
   some ⟨[("speed", Val.vInt 3)]⟩⟩

/-- A node whose remapping table does not declare the port missing, while
the store does hold an entry under that very name. -/
def nodeUndeclared : TreeNode :=
  ⟨"und", NodeStatus.IDLE, 4,
   ⟨some ⟨[("missing", Val.vInt 7)]⟩, "UndNode", [("other", "=")]⟩,
   some ⟨[("missing", Val.vInt 7)]⟩⟩

/-- A node whose port speed is remapped to the equal token over a store
holding 1, used to observe the effect of setBlackboard. -/
def nodeSwap : TreeNode :=
  ⟨"swap", NodeStatus.IDLE, 5,
   ⟨some ⟨[("speed", Val.vInt 1)]⟩, "SwapNode", [("speed", "=")]⟩,
   some ⟨[("speed", Val.vInt 1)]⟩⟩

/-- A replacement store holding 2 under the name speed. -/
def bbTwo : Blackboard := ⟨[("speed", Val.vInt 2)]⟩

/-- A node with an empty store whose port out is remapped to the plain store
key dest, used to observe a successful setOutput. -/
def nodeOut : TreeNode :=
  ⟨"outnode", NodeStatus.IDLE, 6,
   ⟨some ⟨[]⟩, "OutNode", [("out", "dest")]⟩,
   some ⟨[]⟩⟩

/-- The node state after nodeOut.setOutput writes 4 under dest. -/
def nodeOutAfter : TreeNode :=
  ⟨"outnode", NodeStatus.IDLE, 6,
   ⟨some ⟨[]⟩, "OutNode", [("out", "dest")]⟩,
   some ⟨[("dest", Val.vInt 4)]⟩⟩

/-- The resolution outcome of the getParam continuation, viewed as an
optional value: some v exactly on the paths that write v and return true,
none on every caught-failure path. Used to relate the two overloads. -/
def resolvePort (parse : Ty → String → Option Val) (node : TreeNode) (t : Ty)
    (remapped_key : String) : Option Val :=
  if TreeNode.isParseableString remapped_key then parse t remapped_key
  else
    match node.bb_ with
    | none => none
    | some bb =>
      match bb.getAny remapped_key with
      | none => none
      | some val =>
        if t ≠ Ty.tStr ∧ val.ty = Ty.tStr then parse t val.asString
        else val.cast t

/-- The full getParam pipeline viewed as an optional resolution outcome. -/
def resolveParam (parse : Ty → String → Option Val) (node : TreeNode) (t : Ty)
    (key : String) : Option Val :=
  match node.config_.ports_remapping.lookup key with
  | none => none
  | some remap =>
    resolvePort parse node t (if remap = ("=" : String) then key else remap)

/-- Pair a resolution outcome with the out-parameter convention of the bool
overload: true with the resolved value, false with the untouched
destination. -/
def boolPair (o : Option Val) (d : Val) : Bool × Val :=
  match o with
  | some v => (true, v)
  | none => (false, d)

theorem resolveStep_val (parse : Ty → String → Option Val) (t : Ty) (val d : Val) :
    (if t ≠ Ty.tStr ∧ val.ty = Ty.tStr then
       match parse t val.asString with
       | some v => ((true, v) : Bool × Val)
       | none => (false, d)
     else
       match val.cast t with
       | some v => (true, v)
       | none => (false, d)) =
    boolPair (if t ≠ Ty.tStr ∧ val.ty = Ty.tStr then parse t val.asString
              else val.cast t) d := by
  by_cases hc : t ≠ Ty.tStr ∧ val.ty = Ty.tStr
  · rw [if_pos hc, if_pos hc]
    all_goals cases parse t val.asString <;> rfl
  · rw [if_neg hc, if_neg hc]
    all_goals cases val.cast t <;> rfl

theorem resolveStep_store (parse : Ty → String → Option Val) (t : Ty)
    (o : Option Val) (d : Val) :
    (match o with
      | none => ((false, d) : Bool × Val)
      | some val =>
        if t ≠ Ty.tStr ∧ val.ty = Ty.tStr then
          match parse t val.asString with
          | some v => (true, v)
          | none => (false, d)
        else
          match val.cast t with
          | some v => (true, v)
          | none => (false, d)) =
    boolPair (match o with
      | none => none
      | some val =>
        if t ≠ Ty.tStr ∧ val.ty = Ty.tStr then parse t val.asString
        else val.cast t) d := by
  cases o with
  | none => rfl
  | some val => exact resolveStep_val parse t val d

theorem getParamResolved_eq_resolvePort (parse : Ty → String → Option Val)
    (node : TreeNode) (t : Ty) (rk : String) (d : Val) :
    node.getParamResolved parse t rk d = boolPair (resolvePort parse node t rk) d := by
  unfold TreeNode.getParamResolved resolvePort
  by_cases hp : TreeNode.isParseableString rk = true
  · rw [if_pos hp, if_pos hp]
    all_goals cases parse t rk <;> rfl
  · rw [if_neg hp, if_neg hp]
    all_goals cases node.bb_ with
    | none => rfl
    | some bb => exact resolveStep_store parse t (bb.getAny rk) d

theorem getParam_eq_resolveParam (parse : Ty → String → Option Val)
    (node : TreeNode) (t : Ty) (key : String) (d : Val) :
    node.getParam parse t key d = boolPair (resolveParam parse node t key) d := by
  unfold TreeNode.getParam resolveParam
  cases node.config_.ports_remapping.lookup key with
  | none => rfl
  | some remap => exact getParamResolved_eq_resolvePort parse node t _ d

theorem isParseableString_not_equal_token (remap : String)
    (hp : TreeNode.isParseableString remap = true) : remap ≠ ("=" : String) := by
  intro he
  subst he
  exact absurd hp (by decide)

/-- C1: for a port remapped to a bracket-delimited literal, getParam is
claimed to strip the delimiters and return the parsed inner value (literal 5
yields 5) without consulting the store. The code discards the result of the
substr call at tree_node.h:186, so the full delimited token reaches the
string-conversion collaborator: on the node whose port answer is remapped to
the bracket literal around 5, getParam over the integer parser returns
false, while the spec-modelled stripped parse of the same token yields 5;
the store is indeed never consulted (it holds 99 under the same name, which
never surfaces). -/
theorem C1_literal_parsed_unstripped :
    TreeNode.getParam convertFromString nodeLiteralFive Ty.tInt ("answer") (Val.vInt 0)
        = (false, Val.vInt 0) ∧
    getParamLiteralSpec convertFromString Ty.tInt ("[5]") (Val.vInt 0)
        = (true, Val.vInt 5) ∧
    nodeLiteralFive.bb_ = some ⟨[("answer", Val.vInt 99)]⟩ ∧
    Blackboard.getAny ⟨[("answer", Val.vInt 99)]⟩ ("answer") = some (Val.vInt 99) := by
  decide

/-- C2: the claim says every resolution failure of getParam and setOutput,
including store access with no store reference, is surfaced as a
false/empty result. setOutput (tree_node.h:239) dereferences bb_ with no
null check: on a node whose bb_ is the null pointer and whose port out is
remapped to the plain store key dest, setOutput reaches the undefined
dereference (crash) instead of returning false, while getParam on the very
same node state catches the condition and returns false. -/
theorem C2_setOutput_null_store_not_caught :
    TreeNode.setOutput nodeNoStore ("out") (Val.vInt 42) = SetOutputResult.crash ∧
    SetOutputResult.crash ≠ SetOutputResult.failed ∧
    TreeNode.getParam convertFromString nodeNoStore Ty.tInt ("out") (Val.vInt 0)
        = (false, Val.vInt 0) := by
  decide

/-- C3: for a port whose remap expression is the exact token for equality,
both getParam (tree_node.h:178-181) and setOutput (tree_node.h:228-232)
substitute the port key itself as the effective remapped key and continue
resolution with it. -/
theorem C3_equal_token_uses_port_key (parse : Ty → String → Option Val)
    (node : TreeNode) (t : Ty) (key : String) (destination value : Val)
    (h : node.config_.ports_remapping.lookup key = some ("=" : String)) :
    node.getParam parse t key destination
        = node.getParamResolved parse t key destination ∧
    node.setOutput key value = node.setOutputResolved key value := by
  unfold TreeNode.getParam TreeNode.setOutput
  rw [h]
  simp

theorem C3_witness :
    nodeSpeed.config_.ports_remapping.lookup ("speed") = some ("=" : String) ∧
    (TreeNode.getParam convertFromString nodeSpeed Ty.tInt ("speed") (Val.vInt 0)
        = TreeNode.getParamResolved convertFromString nodeSpeed Ty.tInt ("speed") (Val.vInt 0) ∧
     TreeNode.setOutput nodeSpeed ("speed") (Val.vInt 9)
        = TreeNode.setOutputResolved nodeSpeed ("speed") (Val.vInt 9)) ∧
    TreeNode.getParam convertFromString nodeSpeed Ty.tInt ("speed") (Val.vInt 0)
        = (true, Val.vInt 3) :=
  ⟨by decide,
   C3_equal_token_uses_port_key convertFromString nodeSpeed Ty.tInt ("speed")
     (Val.vInt 0) (Val.vInt 9) (by decide),
   by decide⟩

/-- C4: for a key absent from the port-remapping table, getParam
(tree_node.h:171-176) and setOutput (tree_node.h:222-227) both fail with the
false/failed result, whatever the store holds. -/
theorem C4_unmapped_port_fails (parse : Ty → String → Option Val)
    (node : TreeNode) (t : Ty) (key : String) (destination value : Val)
    (h : node.config_.ports_remapping.lookup key = none) :
    node.getParam parse t key destination = (false, destination) ∧
    node.setOutput key value = SetOutputResult.failed := by
  unfold TreeNode.getParam TreeNode.setOutput
  rw [h]
  exact ⟨rfl, rfl⟩

theorem C4_witness :
    nodeUndeclared.config_.ports_remapping.lookup ("missing") = none ∧
    (TreeNode.getParam convertFromString nodeUndeclared Ty.tInt ("missing") (Val.vInt 0)
        = (false, Val.vInt 0) ∧
     TreeNode.setOutput nodeUndeclared ("missing") (Val.vInt 8) = SetOutputResult.failed) :=
  ⟨by decide,
   C4_unmapped_port_fails convertFromString nodeUndeclared Ty.tInt ("missing")
     (Val.vInt 0) (Val.vInt 8) (by decide)⟩

/-- C5: for a port whose remap expression is a bracket-delimited literal,
setOutput takes the parseable-string branch (tree_node.h:233-237) and
returns false; the failed outcome carries no updated node, so nothing is
written to the store. -/
theorem C5_literal_port_read_only (node : TreeNode) (key remap : String) (value : Val)
    (h : node.config_.ports_remapping.lookup key = some remap)
    (hp : TreeNode.isParseableString remap = true) :
    node.setOutput key value = SetOutputResult.failed := by
  have hne : remap ≠ ("=" : String) := isParseableString_not_equal_token remap hp
  unfold TreeNode.setOutput
  rw [h]
  simp only [if_neg hne]
  unfold TreeNode.setOutputResolved
  rw [if_pos hp]

theorem C5_witness :
    nodeLiteralFive.config_.ports_remapping.lookup ("answer") = some ("[5]" : String) ∧
    TreeNode.isParseableString ("[5]") = true ∧
    TreeNode.setOutput nodeLiteralFive ("answer") (Val.vInt 7) = SetOutputResult.failed :=
  ⟨by decide, by decide,
   C5_literal_port_read_only nodeLiteralFive ("answer") ("[5]") (Val.vInt 7)
     (by decide) (by decide)⟩

/-- C6 counterexample: the uid is stored in a uint16_t (tree_node.h:159), so
the monotonically increasing construction counter is observed modulo 2 to
the 16: the 1st and the 65537th constructed nodes (construction indices 0
and 65536), both of which may be live at once, carry the same unique id,
refuting pairwise distinctness for every N. -/
theorem C6_counterexample : uidOf 0 = uidOf 65536 ∧ (0 : Nat) ≠ 65536 := by
  decide

/-- C6 amended: as long as fewer than 2 to the 16 nodes have been
constructed in the process, the uids assigned by the counter are pairwise
distinct. -/
theorem C6_uids_distinct_below_wrap (i j : Nat) (hi : i < 65536) (hj : j < 65536)
    (hne : i ≠ j) : uidOf i ≠ uidOf j := by
  unfold uidOf
  rw [Nat.mod_eq_of_lt hi, Nat.mod_eq_of_lt hj]
  exact hne

theorem C6_witness :
    (1 : Nat) < 65536 ∧ (2 : Nat) < 65536 ∧ (1 : Nat) ≠ 2 ∧ uidOf 1 ≠ uidOf 2 :=
  ⟨by decide, by decide, by decide,
   C6_uids_distinct_below_wrap 1 2 (by decide) (by decide) (by decide)⟩

/-- C7: setStatus with a value equal to the current status leaves the state
unchanged, fires no callback and wakes nobody; with a different value it
updates the status, wakes the blocked waiters, and fires every currently
subscribed callback exactly once, in subscription order, each receiving the
old and the new status. -/
theorem map_fst_of_map_pair (l : List Nat) (a b : NodeStatus) :
    (l.map fun c => (c, a, b)).map Prod.fst = l := by
  induction l with
  | nil => rfl
  | cons c cs ih => simp [ih]

theorem C7_setStatus_transition_effects (s : NodeSync) (n : NodeStatus) :
    (n = s.status_ → s.setStatus n = ⟨s, [], false⟩) ∧
    (n ≠ s.status_ →
      (s.setStatus n).node = { s with status_ := n } ∧
      (s.setStatus n).wakes = true ∧
      (s.setStatus n).fired.map Prod.fst = s.subscribers ∧
      ∀ e ∈ (s.setStatus n).fired, e.2 = (s.status_, n)) := by
  constructor
  · intro h
    unfold NodeSync.setStatus
    rw [if_pos h]
  · intro h
    unfold NodeSync.setStatus
    rw [if_neg h]
    refine ⟨rfl, rfl, ?_, ?_⟩
    · exact map_fst_of_map_pair s.subscribers s.status_ n
    · intro e he
      simp only [List.mem_map] at he
      obtain ⟨c, _, rfl⟩ := he
      rfl

/-- The sync state of an idle node with two subscribed callbacks. -/
def syncIdle : NodeSync := ⟨NodeStatus.IDLE, [7, 9]⟩

theorem C7_witness :
    ((NodeStatus.IDLE = syncIdle.status_) ∧
     syncIdle.setStatus NodeStatus.IDLE = ⟨syncIdle, [], false⟩) ∧
    ((NodeStatus.RUNNING ≠ syncIdle.status_) ∧
     ((syncIdle.setStatus NodeStatus.RUNNING).node
         = { syncIdle with status_ := NodeStatus.RUNNING } ∧
      (syncIdle.setStatus NodeStatus.RUNNING).wakes = true ∧
      (syncIdle.setStatus NodeStatus.RUNNING).fired.map Prod.fst = syncIdle.subscribers ∧
      ∀ e ∈ (syncIdle.setStatus NodeStatus.RUNNING).fired,
        e.2 = (syncIdle.status_, NodeStatus.RUNNING))) :=
  ⟨⟨rfl, (C7_setStatus_transition_effects syncIdle NodeStatus.IDLE).1 rfl⟩,
   ⟨by decide, (C7_setStatus_transition_effects syncIdle NodeStatus.RUNNING).2 (by decide)⟩⟩

theorem waitValid_nonidle (current : NodeStatus) (future : List NodeStatus)
    (h : current ≠ NodeStatus.IDLE) : waitValidStatus current future = some current := by
  cases future with
  | nil =>
    unfold waitValidStatus
    rw [if_neg h]
  | cons s rest =>
    unfold waitValidStatus
    rw [if_neg h]

theorem waitValid_idle_eq_firstNonIdle (future : List NodeStatus) :
    waitValidStatus NodeStatus.IDLE future = firstNonIdle future := by
  induction future with
  | nil => rfl
  | cons s rest ih =>
    have h1 : waitValidStatus NodeStatus.IDLE (s :: rest) = waitValidStatus s rest := rfl
    rw [h1]
    by_cases h : s = NodeStatus.IDLE
    · subst h
      rw [ih]
      have h2 : firstNonIdle (NodeStatus.IDLE :: rest) = firstNonIdle rest := rfl
      rw [h2]
    · rw [waitValid_nonidle s rest h]
      unfold firstNonIdle
      rw [if_neg h]

/-- C8: waitValidStatus called while the status is not IDLE returns the
current status immediately; called while IDLE it pends until a setStatus
call supplies a non-IDLE value and returns exactly the first such value (and
pends forever, modelled as none, if no such call arrives). -/
theorem C8_waitValidStatus_behavior (current : NodeStatus) (future : List NodeStatus) :
    (current ≠ NodeStatus.IDLE → waitValidStatus current future = some current) ∧
    (current = NodeStatus.IDLE → waitValidStatus current future = firstNonIdle future) := by
  constructor
  · intro h
    exact waitValid_nonidle current future h
  · intro h
    subst h
    exact waitValid_idle_eq_firstNonIdle future

theorem C8_witness :
    ((NodeStatus.SUCCESS ≠ NodeStatus.IDLE) ∧
     waitValidStatus NodeStatus.SUCCESS [] = some NodeStatus.SUCCESS) ∧
    ((NodeStatus.IDLE = NodeStatus.IDLE) ∧
     waitValidStatus NodeStatus.IDLE [NodeStatus.IDLE, NodeStatus.RUNNING]
        = firstNonIdle [NodeStatus.IDLE, NodeStatus.RUNNING]) ∧
    firstNonIdle [NodeStatus.IDLE, NodeStatus.RUNNING] = some NodeStatus.RUNNING :=
  ⟨⟨by decide, (C8_waitValidStatus_behavior NodeStatus.SUCCESS []).1 (by decide)⟩,
   ⟨rfl, (C8_waitValidStatus_behavior NodeStatus.IDLE
      [NodeStatus.IDLE, NodeStatus.RUNNING]).2 rfl⟩,
   by decide⟩

/-- C9 counterexample: the store reference used by port resolution is the
mutable member bb_, not the const config_; setBlackboard reassigns it, so
after the call the very same port read observes a different store, refuting
the claim that the store reference used by port resolution is never mutated
by any operation of the node. -/
theorem C9_counterexample :
    (nodeSwap.setBlackboard (some bbTwo)).bb_ ≠ nodeSwap.bb_ ∧
    TreeNode.getParam convertFromString nodeSwap Ty.tInt ("speed") (Val.vInt 0)
        = (true, Val.vInt 1) ∧
    TreeNode.getParam convertFromString (nodeSwap.setBlackboard (some bbTwo))
        Ty.tInt ("speed") (Val.vInt 0) = (true, Val.vInt 2) := by
  decide

/-- C9 amended: the config_ member itself (store reference, registration id
and port-remapping table, tree_node.h:161) is const and is preserved by
every state-changing node operation, including setBlackboard and a
successful setOutput; only the separate bb_ pointer that port resolution
dereferences is reassigned by setBlackboard. -/
theorem C9_config_never_mutated (node : TreeNode) (key : String) (value : Val)
    (bb : Option Blackboard) (n' : TreeNode) :
    (node.setBlackboard bb).config_ = node.config_ ∧
    (node.setOutput key value = SetOutputResult.ok n' → n'.config_ = node.config_) := by
  refine ⟨rfl, ?_⟩
  intro h
  unfold TreeNode.setOutput TreeNode.setOutputResolved at h
  repeat' split at h
  all_goals
    first
      | exact SetOutputResult.noConfusion h
      | (injection h with h2
         rw [← h2])

theorem C9_witness :
    (nodeOut.setOutput ("out") (Val.vInt 4) = SetOutputResult.ok nodeOutAfter) ∧
    ((nodeOut.setBlackboard none).config_ = nodeOut.config_ ∧
     nodeOutAfter.config_ = nodeOut.config_) :=
  ⟨by decide,
   (C9_config_never_mutated nodeOut ("out") (Val.vInt 4) none nodeOutAfter).1,
   (C9_config_never_mutated nodeOut ("out") (Val.vInt 4) none nodeOutAfter).2 (by decide)⟩

/-- C10: the optional-returning getParam overload (tree_node.h:123-128)
agrees with the bool-returning one (tree_node.h:168-217): it is engaged with
v exactly when the bool overload returns true having written v into the
caller's destination (whatever that destination held before), and empty
exactly when the bool overload returns false. -/
theorem C10_getParam_overloads_agree (parse : Ty → String → Option Val)
    (node : TreeNode) (t : Ty) (key : String) (defaultVal destination : Val) :
    (∀ v, node.getParamOpt parse t key defaultVal = some v ↔
       node.getParam parse t key destination = (true, v)) ∧
    (node.getParamOpt parse t key defaultVal = none ↔
       (node.getParam parse t key destination).1 = false) := by
  unfold TreeNode.getParamOpt
  rw [getParam_eq_resolveParam parse node t key defaultVal,
      getParam_eq_resolveParam parse node t key destination]
  cases resolveParam parse node t key with
  | none =>
    constructor
    · intro v
      simp [boolPair]
    · simp [boolPair]
  | some a =>
    constructor
    · intro v
      simp [boolPair]
    · simp [boolPair]
